import Mathlib

/-!
Verification of the geospatial analytics module: quadkey decoding,
Web-Mercator projection and its inverse, tile vertex geometry and geodesic
distance scaling, together with the attribute-search helpers over graphs.

Modelling conventions: Python floats are modelled over the real numbers;
the quadkey accumulators are `Nat` (they only ever OR non-negative masks
into 0); code that can raise an exception is modelled with `Option` or
`Except`, a raised exception becoming `none` / `.error`.
-/

namespace Analytics

/-! ### AttributeSearch: `search_edges` / `search_nodes`

Graphs are modelled by their element lists: an edge is `(id1, id2, data)`
and a node is `(id, data)`, where `data` is an association list from
attribute name to value, and the keyword-argument query is likewise an
ordered association list. -/

/-- Python dict read `data[key]`, minus the raise: `none` when absent. -/
def dict_find {α : Type} (data : List (String × α)) (key : String) : Option α :=
  (data.find? (fun kv => kv.1 = key)).map (fun kv => kv.2)

/-- The generator `all(data[key] == value for key, value in kwargs.items())`:
walks the query pairs in order, raising `KeyError(key)` (modelled as
`.error key`) when `data` lacks a queried key, and short-circuiting at the
first mismatching value. -/
def matches_all {α : Type} [DecidableEq α] (data : List (String × α)) :
    List (String × α) → Except String Bool
  | [] => .ok true
  | (key, value) :: rest =>
    match dict_find data key with
    | none => .error key
    | some w => if w = value then matches_all data rest else .ok false

/-- `search_edges`: scans `graph.edges.data()` in order and appends every
edge whose data matches all query pairs; a `KeyError` raised while testing
any edge aborts the whole call. -/
def search_edges {α : Type} [DecidableEq α]
    (edges : List (Nat × Nat × List (String × α))) (kwargs : List (String × α)) :
    Except String (List (Nat × Nat × List (String × α))) :=
  match edges with
  | [] => .ok []
  | e :: rest =>
    match matches_all e.2.2 kwargs with
    | .error key => .error key
    | .ok true => (search_edges rest kwargs).map (fun found => e :: found)
    | .ok false => search_edges rest kwargs

/-- `search_nodes`: same scan over `graph.nodes.data()`. -/
def search_nodes {α : Type} [DecidableEq α]
    (nodes : List (Nat × List (String × α))) (kwargs : List (String × α)) :
    Except String (List (Nat × List (String × α))) :=
  match nodes with
  | [] => .ok []
  | nd :: rest =>
    match matches_all nd.2 kwargs with
    | .error key => .error key
    | .ok true => (search_nodes rest kwargs).map (fun found => nd :: found)
    | .ok false => search_nodes rest kwargs

/-! ### QuadkeyCodec: `quadkey_to_tile_coordinates` -/

/-- The decode loop `for i in range(tile_size, 0, -1)`: `i` counts down from
`tile_size` to 1 while the digits are read left to right (digit index
`tile_size - i`), the mask being `1 << (i-1)`.  An invalid digit only prints
`[ERROR] Invalid quadkey digit sequence.` and the loop continues, so it
contributes no bits. -/
def quadkey_loop : List Char → Nat → Nat → Nat → Nat × Nat
  | [], _, x, y => (x, y)
  | digit :: rest, i, x, y =>
    if digit = '0' then quadkey_loop rest (i - 1) x y
    else if digit = '1' then quadkey_loop rest (i - 1) (x ||| 1 <<< (i - 1)) y
    else if digit = '2' then quadkey_loop rest (i - 1) x (y ||| 1 <<< (i - 1))
    else if digit = '3' then
      quadkey_loop rest (i - 1) (x ||| 1 <<< (i - 1)) (y ||| 1 <<< (i - 1))
    else quadkey_loop rest (i - 1) x y

/-- `quadkey_to_tile_coordinates`: runs the decode loop with both
accumulators starting at 0 and returns `(x, y)`. -/
def quadkey_to_tile_coordinates (quadkey : String) : Nat × Nat :=
  quadkey_loop quadkey.data quadkey.length 0 0

/-- The bits the loop ORs into `x`, computed without an accumulator
(proof helper). -/
def xval : List Char → Nat → Nat
  | [], _ => 0
  | digit :: rest, i =>
    (if digit = '1' ∨ digit = '3' then 1 <<< (i - 1) else 0) ||| xval rest (i - 1)

/-- The bits the loop ORs into `y`, computed without an accumulator
(proof helper). -/
def yval : List Char → Nat → Nat
  | [], _ => 0
  | digit :: rest, i =>
    (if digit = '2' ∨ digit = '3' then 1 <<< (i - 1) else 0) ||| yval rest (i - 1)

theorem quadkey_loop_eq (l : List Char) : ∀ (i x y : Nat),
    quadkey_loop l i x y = (x ||| xval l i, y ||| yval l i) := by
  induction l with
  | nil => intro i x y; simp [quadkey_loop, xval, yval]
  | cons digit rest ih =>
    intro i x y
    simp only [quadkey_loop, xval, yval]
    split_ifs <;> simp_all [ih, Nat.or_assoc]

theorem xval_lt (l : List Char) : xval l l.length < 2 ^ l.length := by
  induction l with
  | nil => simp [xval]
  | cons digit rest ih =>
    simp only [xval, List.length_cons, Nat.add_sub_cancel]
    have hpow : 2 ^ rest.length < 2 ^ (rest.length + 1) :=
      Nat.pow_lt_pow_right (by norm_num) (Nat.lt_succ_self _)
    apply Nat.or_lt_two_pow
    · split_ifs
      · rw [Nat.one_shiftLeft]; exact hpow
      · exact Nat.pos_pow_of_pos _ (by norm_num)
    · exact lt_trans ih hpow

theorem yval_lt (l : List Char) : yval l l.length < 2 ^ l.length := by
  induction l with
  | nil => simp [yval]
  | cons digit rest ih =>
    simp only [yval, List.length_cons, Nat.add_sub_cancel]
    have hpow : 2 ^ rest.length < 2 ^ (rest.length + 1) :=
      Nat.pow_lt_pow_right (by norm_num) (Nat.lt_succ_self _)
    apply Nat.or_lt_two_pow
    · split_ifs
      · rw [Nat.one_shiftLeft]; exact hpow
      · exact Nat.pos_pow_of_pos _ (by norm_num)
    · exact lt_trans ih hpow

theorem xval_testBit (l : List Char) : ∀ k, k < l.length →
    (Nat.testBit (xval l l.length) k ↔
      (l.getD (l.length - 1 - k) ' ' = '1' ∨ l.getD (l.length - 1 - k) ' ' = '3')) := by
  induction l with
  | nil => intro k hk; simp at hk
  | cons digit rest ih =>
    intro k hk
    simp only [xval, List.length_cons, Nat.add_sub_cancel, Nat.testBit_lor]
    by_cases hk2 : k = rest.length
    · subst hk2
      have hrest : Nat.testBit (xval rest rest.length) rest.length = false :=
        Nat.testBit_eq_false_of_lt (xval_lt rest)
      have hidx : rest.length - rest.length = 0 := Nat.sub_self _
      rw [hrest, hidx]
      split_ifs with hd
      · simp [Nat.one_shiftLeft, Nat.testBit_two_pow, hd]
      · simp [hd]
    · have hklt : k < rest.length := by
        have := List.length_cons digit rest; omega
      have hmask : ∀ b : Bool,
          Nat.testBit (if digit = '1' ∨ digit = '3' then 1 <<< rest.length else 0) k
            = false := by
        intro _
        split_ifs
        · rw [Nat.one_shiftLeft]
          simp [Nat.testBit_two_pow, hk2, Ne.symm hk2]
        · simp
      rw [hmask true]
      have hidx : rest.length - k = (rest.length - 1 - k) + 1 := by omega
      rw [hidx, List.getD_cons_succ]
      simpa using ih k hklt

theorem yval_testBit (l : List Char) : ∀ k, k < l.length →
    (Nat.testBit (yval l l.length) k ↔
      (l.getD (l.length - 1 - k) ' ' = '2' ∨ l.getD (l.length - 1 - k) ' ' = '3')) := by
  induction l with
  | nil => intro k hk; simp at hk
  | cons digit rest ih =>
    intro k hk
    simp only [yval, List.length_cons, Nat.add_sub_cancel, Nat.testBit_lor]
    by_cases hk2 : k = rest.length
    · subst hk2
      have hrest : Nat.testBit (yval rest rest.length) rest.length = false :=
        Nat.testBit_eq_false_of_lt (yval_lt rest)
      have hidx : rest.length - rest.length = 0 := Nat.sub_self _
      rw [hrest, hidx]
      split_ifs with hd
      · simp [Nat.one_shiftLeft, Nat.testBit_two_pow, hd]
      · simp [hd]
    · have hklt : k < rest.length := by
        have := List.length_cons digit rest; omega
      have hmask : ∀ b : Bool,
          Nat.testBit (if digit = '2' ∨ digit = '3' then 1 <<< rest.length else 0) k
            = false := by
        intro _
        split_ifs
        · rw [Nat.one_shiftLeft]
          simp [Nat.testBit_two_pow, hk2, Ne.symm hk2]
        · simp
      rw [hmask true]
      have hidx : rest.length - k = (rest.length - 1 - k) + 1 := by omega
      rw [hidx, List.getD_cons_succ]
      simpa using ih k hklt

theorem quadkey_to_tile_coordinates_eq (qk : String) :
    quadkey_to_tile_coordinates qk =
      (xval qk.data qk.data.length, yval qk.data qk.data.length) := by
  show quadkey_loop qk.data qk.length 0 0 = _
  rw [quadkey_loop_eq]
  simp only [Nat.zero_or]
  rfl

/-! ### MercatorProjector -/

/-- `spherical_to_mercator_coordinates`: returns `(y, x)` with
`x = earth_radius*lon*pi/180` and
`y = earth_radius*log(tan(pi/4 + lat*pi/360))`, `earth_radius = 6378137`
(WGS-84). -/
noncomputable def spherical_to_mercator_coordinates (lon lat : ℝ) : ℝ × ℝ :=
  (6378137 * Real.log (Real.tan (Real.pi / 4 + lat * Real.pi / 360)),
   6378137 * lon * Real.pi / 180)

/-- `mercator_to_spherical_coordinates`: returns `(lon, lat)` with
`lon = x/earth_radius*180/pi` and
`lat = (2*arctan(exp(y/earth_radius)) - pi/2)*180/pi`. -/
noncomputable def mercator_to_spherical_coordinates (y x : ℝ) : ℝ × ℝ :=
  (x / 6378137 * 180 / Real.pi,
   (2 * Real.arctan (Real.exp (y / 6378137)) - Real.pi / 2) * 180 / Real.pi)

/-! ### TileGeometry -/

/-- The `tile_length` dict in `get_tile_vertices`, keyed on zoom levels
1..16; a lookup outside the domain is a `KeyError`, modelled as `none`. -/
noncomputable def tile_length (tile_size : Int) : Option ℝ :=
  if tile_size = 1 then some 20015089.262170314752
  else if tile_size = 2 then some 10007544.631085157376
  else if tile_size = 3 then some 5003772.315542578688
  else if tile_size = 4 then some 2501886.157771289344
  else if tile_size = 5 then some 1250943.078885644672
  else if tile_size = 6 then some 625471.539442822336
  else if tile_size = 7 then some 312735.769721411168
  else if tile_size = 8 then some 156367.884860705584
  else if tile_size = 9 then some 78183.942430352792
  else if tile_size = 10 then some 39091.971215176396
  else if tile_size = 11 then some 19545.985607588198
  else if tile_size = 12 then some 9772.992803794099
  else if tile_size = 13 then some 4886.4964018970495
  else if tile_size = 14 then some 2443.24820094852475
  else if tile_size = 15 then some 1221.624100474262375
  else if tile_size = 16 then some 610.8120502371311875
  else none

/-- `get_tile_vertices`: looks up the edge length for the zoom level,
projects the center to Mercator `(y, x)`, and returns the four corners
`p0, p1, p2, p3` obtained by offsetting by `±length/2` and converting back;
the `KeyError` on an unsupported zoom level is the `none` case. -/
noncomputable def get_tile_vertices (lon lat : ℝ) (tile_size : Int) :
    Option ((ℝ × ℝ) × (ℝ × ℝ) × (ℝ × ℝ) × (ℝ × ℝ)) :=
  match tile_length tile_size with
  | none => none
  | some length =>
    some (mercator_to_spherical_coordinates
            ((spherical_to_mercator_coordinates lon lat).1 + length / 2)
            ((spherical_to_mercator_coordinates lon lat).2 - length / 2),
          mercator_to_spherical_coordinates
            ((spherical_to_mercator_coordinates lon lat).1 + length / 2)
            ((spherical_to_mercator_coordinates lon lat).2 + length / 2),
          mercator_to_spherical_coordinates
            ((spherical_to_mercator_coordinates lon lat).1 - length / 2)
            ((spherical_to_mercator_coordinates lon lat).2 - length / 2),
          mercator_to_spherical_coordinates
            ((spherical_to_mercator_coordinates lon lat).1 - length / 2)
            ((spherical_to_mercator_coordinates lon lat).2 + length / 2))

/-! ### GeodesicDistance -/

/-- Modelled from the spec: the external `vincenty` dependency (not part of
this repository) computes Vincenty's inverse geodesic distance on the WGS-84
ellipsoid in kilometers, yielding no value (`none`) when the iteration fails
to converge; it is taken as a parameter here. `orthodrome_length` itself is
translated from the source: `vincenty((lat1, lon1), (lat2, lon2))*1000`,
where the `none` case (the Python multiplication raises on `None`) is a
propagated failure. -/
def orthodrome_length (vincenty : ℝ × ℝ → ℝ × ℝ → Option ℝ)
    (lat1 lon1 lat2 lon2 : ℝ) : Option ℝ :=
  (vincenty (lat1, lon1) (lat2, lon2)).map (fun length => length * 1000)

/-! ### Claim theorems -/

/-- C1: for every quadkey over the digits 0-3 of length `n` and every
position `i` with `1 ≤ i ≤ n`, bit `i-1` of the decoded `x` is set iff the
digit at string index `n - i` is 1 or 3, and bit `i-1` of `y` is set iff
that digit is 2 or 3 (so `decode("123") = (5, 3)`, exhibited in the
witness). -/
theorem quadkey_to_tile_coordinates_bits (qk : String)
    (hdigits : ∀ c ∈ qk.data, c = '0' ∨ c = '1' ∨ c = '2' ∨ c = '3')
    (i : Nat) (h1 : 1 ≤ i) (h2 : i ≤ qk.length) :
    (Nat.testBit (quadkey_to_tile_coordinates qk).1 (i - 1) ↔
      (qk.data.getD (qk.length - i) ' ' = '1' ∨ qk.data.getD (qk.length - i) ' ' = '3')) ∧
    (Nat.testBit (quadkey_to_tile_coordinates qk).2 (i - 1) ↔
      (qk.data.getD (qk.length - i) ' ' = '2' ∨ qk.data.getD (qk.length - i) ' ' = '3')) := by
  have hlen : qk.length = qk.data.length := rfl
  have hk : i - 1 < qk.data.length := by omega
  have hidx : qk.data.length - 1 - (i - 1) = qk.length - i := by omega
  have hx := xval_testBit qk.data (i - 1) hk
  have hy := yval_testBit qk.data (i - 1) hk
  rw [hidx] at hx hy
  rw [quadkey_to_tile_coordinates_eq]
  exact ⟨hx, hy⟩

/-- Witness for C1 at the quadkey "123" with `i = 3`, together with the
claim's concrete scenario `decode("123") = (5, 3)`. -/
theorem quadkey_to_tile_coordinates_bits_witness :
    quadkey_to_tile_coordinates (String.mk ['1', '2', '3']) = (5, 3) ∧
    ((Nat.testBit (quadkey_to_tile_coordinates (String.mk ['1', '2', '3'])).1 (3 - 1) ↔
      ((String.mk ['1', '2', '3']).data.getD ((String.mk ['1', '2', '3']).length - 3) ' ' = '1' ∨
       (String.mk ['1', '2', '3']).data.getD ((String.mk ['1', '2', '3']).length - 3) ' ' = '3')) ∧
     (Nat.testBit (quadkey_to_tile_coordinates (String.mk ['1', '2', '3'])).2 (3 - 1) ↔
      ((String.mk ['1', '2', '3']).data.getD ((String.mk ['1', '2', '3']).length - 3) ' ' = '2' ∨
       (String.mk ['1', '2', '3']).data.getD ((String.mk ['1', '2', '3']).length - 3) ' ' = '3'))) :=
  ⟨by decide,
   quadkey_to_tile_coordinates_bits (String.mk ['1', '2', '3']) (by decide) 3
     (by decide) (by decide)⟩

/-- C2 (code bug evidence): the reference decoder does not fail on the
invalid digit 5 of "15": the loop prints an error message for that
position, continues, and the call still returns the coordinate `(2, 0)`
built from the remaining digits. -/
theorem quadkey_to_tile_coordinates_invalid_digit :
    quadkey_to_tile_coordinates (String.mk ['1', '5']) = (2, 0) := by decide

/-- C10: for a quadkey over the digits 0-3 of length `n`, both decoded
coordinates are at most `2^n - 1` (they are `Nat`s, hence non-negative),
and the empty quadkey decodes to `(0, 0)`. -/
theorem quadkey_to_tile_coordinates_range (qk : String)
    (hdigits : ∀ c ∈ qk.data, c = '0' ∨ c = '1' ∨ c = '2' ∨ c = '3') :
    (quadkey_to_tile_coordinates qk).1 ≤ 2 ^ qk.length - 1 ∧
    (quadkey_to_tile_coordinates qk).2 ≤ 2 ^ qk.length - 1 ∧
    quadkey_to_tile_coordinates (String.mk []) = (0, 0) := by
  have hlen : qk.length = qk.data.length := rfl
  rw [quadkey_to_tile_coordinates_eq, hlen]
  refine ⟨Nat.le_sub_one_of_lt (xval_lt qk.data),
          Nat.le_sub_one_of_lt (yval_lt qk.data), by decide⟩

/-- Witness for C10 at the quadkey "31". -/
theorem quadkey_to_tile_coordinates_range_witness :
    (quadkey_to_tile_coordinates (String.mk ['3', '1'])).1 ≤
      2 ^ (String.mk ['3', '1']).length - 1 ∧
    (quadkey_to_tile_coordinates (String.mk ['3', '1'])).2 ≤
      2 ^ (String.mk ['3', '1']).length - 1 ∧
    quadkey_to_tile_coordinates (String.mk []) = (0, 0) :=
  quadkey_to_tile_coordinates_range (String.mk ['3', '1']) (by decide)

/-- C9: the forward projection returns `(y, x)` with `x = R·lon·π/180` and
`y = R·ln(tan(π/4 + lat·π/360))` for `R = 6378137`, and the inverse returns
`lon = x/R·180/π` and `lat = (2·atan(exp(y/R)) − π/2)·180/π`. -/
theorem mercator_formulas (lon lat y x : ℝ) :
    spherical_to_mercator_coordinates lon lat =
      (6378137 * Real.log (Real.tan (Real.pi / 4 + lat * Real.pi / 360)),
       6378137 * lon * Real.pi / 180) ∧
    mercator_to_spherical_coordinates y x =
      (x / 6378137 * 180 / Real.pi,
       (2 * Real.arctan (Real.exp (y / 6378137)) - Real.pi / 2) * 180 / Real.pi) :=
  ⟨rfl, rfl⟩

/-- C3: for latitudes strictly inside (−89, 89) and any longitude,
converting to Mercator and back reproduces the point exactly over the
reals (the two projections are inverse away from the polar singularity),
hence in particular within the claimed 1e-9 relative tolerance. -/
theorem mercator_round_trip (lon lat : ℝ) (h1 : -89 < lat) (h2 : lat < 89) :
    mercator_to_spherical_coordinates
      (spherical_to_mercator_coordinates lon lat).1
      (spherical_to_mercator_coordinates lon lat).2 = (lon, lat) ∧
    |(mercator_to_spherical_coordinates
        (spherical_to_mercator_coordinates lon lat).1
        (spherical_to_mercator_coordinates lon lat).2).1 - lon| ≤ 1e-9 * |lon| ∧
    |(mercator_to_spherical_coordinates
        (spherical_to_mercator_coordinates lon lat).1
        (spherical_to_mercator_coordinates lon lat).2).2 - lat| ≤ 1e-9 * |lat| := by
  have hπ0 : 0 < Real.pi := Real.pi_pos
  have hp1 : 0 < (lat + 89) * Real.pi := mul_pos (by linarith) hπ0
  have hp2 : 0 < (89 - lat) * Real.pi := mul_pos (by linarith) hπ0
  have hθ0 : 0 < Real.pi / 4 + lat * Real.pi / 360 := by nlinarith
  have hθ2 : Real.pi / 4 + lat * Real.pi / 360 < Real.pi / 2 := by nlinarith
  have htan : 0 < Real.tan (Real.pi / 4 + lat * Real.pi / 360) :=
    Real.tan_pos_of_pos_of_lt_pi_div_two hθ0 hθ2
  have key : mercator_to_spherical_coordinates
      (spherical_to_mercator_coordinates lon lat).1
      (spherical_to_mercator_coordinates lon lat).2 = (lon, lat) := by
    unfold mercator_to_spherical_coordinates spherical_to_mercator_coordinates
    rw [Prod.mk.injEq]
    constructor
    · field_simp
      ring
    · have h6 : (6378137 : ℝ) * Real.log (Real.tan (Real.pi / 4 + lat * Real.pi / 360))
          / 6378137 = Real.log (Real.tan (Real.pi / 4 + lat * Real.pi / 360)) := by
        field_simp
      rw [h6, Real.exp_log htan, Real.arctan_tan (by linarith) hθ2]
      field_simp
      ring
  refine ⟨key, ?_, ?_⟩
  · rw [show (mercator_to_spherical_coordinates
        (spherical_to_mercator_coordinates lon lat).1
        (spherical_to_mercator_coordinates lon lat).2).1 = lon from by rw [key]]
    simp [abs_nonneg]
    positivity
  · rw [show (mercator_to_spherical_coordinates
        (spherical_to_mercator_coordinates lon lat).1
        (spherical_to_mercator_coordinates lon lat).2).2 = lat from by rw [key]]
    simp [abs_nonneg]
    positivity

/-- Witness for C3 at `lon = 45`, `lat = 30`. -/
theorem mercator_round_trip_witness :
    mercator_to_spherical_coordinates
      (spherical_to_mercator_coordinates 45 30).1
      (spherical_to_mercator_coordinates 45 30).2 = (45, 30) ∧
    |(mercator_to_spherical_coordinates
        (spherical_to_mercator_coordinates 45 30).1
        (spherical_to_mercator_coordinates 45 30).2).1 - 45| ≤ 1e-9 * |(45 : ℝ)| ∧
    |(mercator_to_spherical_coordinates
        (spherical_to_mercator_coordinates 45 30).1
        (spherical_to_mercator_coordinates 45 30).2).2 - 30| ≤ 1e-9 * |(30 : ℝ)| :=
  mercator_round_trip 45 30 (by norm_num) (by norm_num)

theorem tile_length_isSome (z : Int) (h1 : 1 ≤ z) (h2 : z ≤ 16) :
    ∃ length, tile_length z = some length := by
  interval_cases z <;> exact ⟨_, rfl⟩

theorem tile_length_none (z : Int) (h : z < 1 ∨ 16 < z) : tile_length z = none := by
  unfold tile_length
  rw [if_neg (by omega : ¬z = 1), if_neg (by omega : ¬z = 2),
    if_neg (by omega : ¬z = 3), if_neg (by omega : ¬z = 4),
    if_neg (by omega : ¬z = 5), if_neg (by omega : ¬z = 6),
    if_neg (by omega : ¬z = 7), if_neg (by omega : ¬z = 8),
    if_neg (by omega : ¬z = 9), if_neg (by omega : ¬z = 10),
    if_neg (by omega : ¬z = 11), if_neg (by omega : ¬z = 12),
    if_neg (by omega : ¬z = 13), if_neg (by omega : ¬z = 14),
    if_neg (by omega : ¬z = 15), if_neg (by omega : ¬z = 16)]

/-- C4: for every center and zoom level in 1..16, `get_tile_vertices` looks
up the edge length, projects the center to Mercator `(y, x)`, and returns
exactly the four corners obtained by converting `(y±length/2, x∓length/2)`
back to spherical coordinates, in the order top-left, top-right,
bottom-left, bottom-right. -/
theorem get_tile_vertices_spec (lon lat : ℝ) (z : Int) (h1 : 1 ≤ z) (h2 : z ≤ 16) :
    ∃ length, tile_length z = some length ∧
      get_tile_vertices lon lat z =
        some (mercator_to_spherical_coordinates
                ((spherical_to_mercator_coordinates lon lat).1 + length / 2)
                ((spherical_to_mercator_coordinates lon lat).2 - length / 2),
              mercator_to_spherical_coordinates
                ((spherical_to_mercator_coordinates lon lat).1 + length / 2)
                ((spherical_to_mercator_coordinates lon lat).2 + length / 2),
              mercator_to_spherical_coordinates
                ((spherical_to_mercator_coordinates lon lat).1 - length / 2)
                ((spherical_to_mercator_coordinates lon lat).2 - length / 2),
              mercator_to_spherical_coordinates
                ((spherical_to_mercator_coordinates lon lat).1 - length / 2)
                ((spherical_to_mercator_coordinates lon lat).2 + length / 2)) := by
  obtain ⟨length, hlen⟩ := tile_length_isSome z h1 h2
  refine ⟨length, hlen, ?_⟩
  unfold get_tile_vertices
  rw [hlen]

/-- Witness for C4 at the equator center `(0, 0)` and zoom level 1. -/
theorem get_tile_vertices_spec_witness :
    ∃ length, tile_length 1 = some length ∧
      get_tile_vertices 0 0 1 =
        some (mercator_to_spherical_coordinates
                ((spherical_to_mercator_coordinates 0 0).1 + length / 2)
                ((spherical_to_mercator_coordinates 0 0).2 - length / 2),
              mercator_to_spherical_coordinates
                ((spherical_to_mercator_coordinates 0 0).1 + length / 2)
                ((spherical_to_mercator_coordinates 0 0).2 + length / 2),
              mercator_to_spherical_coordinates
                ((spherical_to_mercator_coordinates 0 0).1 - length / 2)
                ((spherical_to_mercator_coordinates 0 0).2 - length / 2),
              mercator_to_spherical_coordinates
                ((spherical_to_mercator_coordinates 0 0).1 - length / 2)
                ((spherical_to_mercator_coordinates 0 0).2 + length / 2)) :=
  get_tile_vertices_spec 0 0 1 (by norm_num) (by norm_num)

/-- C5: a zoom level outside 1..16 makes the edge-length lookup fail
(`KeyError`, modelled as `none`), so `get_tile_vertices` never returns a
vertex quad there. -/
theorem get_tile_vertices_unsupported_zoom (lon lat : ℝ) (z : Int)
    (h : z < 1 ∨ 16 < z) : get_tile_vertices lon lat z = none := by
  unfold get_tile_vertices
  rw [tile_length_none z h]

/-- Witness for C5 at the zoom levels 0 and 17 named by the claim. -/
theorem get_tile_vertices_unsupported_zoom_witness :
    get_tile_vertices 0 0 0 = none ∧ get_tile_vertices 0 0 17 = none :=
  ⟨get_tile_vertices_unsupported_zoom 0 0 0 (Or.inl (by norm_num)),
   get_tile_vertices_unsupported_zoom 0 0 17 (Or.inr (by norm_num))⟩

/-- C7: when the Vincenty iteration fails to converge (the library yields
no value), `orthodrome_length` propagates the failure and never returns a
numeric distance. -/
theorem orthodrome_length_nonconvergence (vincenty : ℝ × ℝ → ℝ × ℝ → Option ℝ)
    (lat1 lon1 lat2 lon2 : ℝ)
    (h : vincenty (lat1, lon1) (lat2, lon2) = none) :
    orthodrome_length vincenty lat1 lon1 lat2 lon2 = none := by
  unfold orthodrome_length
  rw [h]
  rfl

/-- Witness for C7 with a non-converging Vincenty model at a near-antipodal
pair. -/
theorem orthodrome_length_nonconvergence_witness :
    orthodrome_length (fun _ _ => none) 0 0 0.5 179.7 = none :=
  orthodrome_length_nonconvergence (fun _ _ => none) 0 0 0.5 179.7 rfl

/-- C8: whenever Vincenty's formula converges to a distance `d` (in
kilometers), `orthodrome_length` returns `d * 1000`, the distance in
meters; the witness exhibits the claim's concrete equatorial scenario. -/
theorem orthodrome_length_scales (vincenty : ℝ × ℝ → ℝ × ℝ → Option ℝ)
    (lat1 lon1 lat2 lon2 d : ℝ)
    (h : vincenty (lat1, lon1) (lat2, lon2) = some d) :
    orthodrome_length vincenty lat1 lon1 lat2 lon2 = some (d * 1000) := by
  unfold orthodrome_length
  rw [h]
  rfl

/-- Witness for C8: with the library's documented value `111.31949` km for
one degree of longitude along the equator, the call returns `111319.49`
meters. -/
theorem orthodrome_length_scales_witness :
    orthodrome_length (fun _ _ => some (111.31949 : ℝ)) 0 0 0 1 = some 111319.49 := by
  have h := orthodrome_length_scales (fun _ _ => some (111.31949 : ℝ)) 0 0 0 1
    111.31949 rfl
  rw [h]
  norm_num

/-- C6 (code bug evidence): an element that lacks a queried key does not
count as a non-match — it raises `KeyError` and aborts the whole search,
discarding even the matches already found: here the first edge matches the
query, the second lacks the key, and the call returns the missing-key
fault instead of the matching edge. -/
theorem search_edges_missing_key_fault :
    search_edges [(0, 1, [("weight", (2 : Nat))]), (2, 3, [])] [("weight", 2)] =
      Except.error "weight" := by
  rfl

end Analytics

